import Mathlib

/-!
Verification development for the courtbooker booking engine.

The definitions below are a shallow embedding of the in-memory storage
module (MemStorage) and the booking routes of the repository:

* `Booking`, `Court`, `Sport` mirror the stored records.  Dates are
  embedded as epoch-day natural numbers: the source stores ISO
  "yyyy-MM-dd" strings and compares them with string equality and
  lexicographic order, and for fixed-width ISO dates both operations
  agree with the corresponding operations on epoch days.  Internal ids
  are embedded as naturals drawn from a fresh counter, modelling the
  fresh random UUIDs the source assigns.
* `parseHour` models the source's parseInt(startTime.split(":")[0], 10);
  it returns none where parseInt yields NaN, and every comparison the
  source performs against NaN is false, which is reflected at each use
  site.
* `mapSet` models JavaScript Map.set keyed on the booking id: it
  replaces the entry holding the key in place and otherwise appends.
* `checkSlotAvailability`, `getBookingsForDateAndCourt`, `createBooking`,
  `updateBookingStatus`, `gridForCourt`, `getAvailability` and
  `getDashboardMetrics` follow MemStorage method by method; `createRoute`,
  `cancelRoute` and `completeRoute` follow the POST /api/bookings,
  /api/bookings/:id/cancel and /api/bookings/:id/complete handlers.
-/

namespace CourtBooker

/-- Court record: id and display name. -/
structure Court where
  id : String
  name : String
deriving DecidableEq, Repr

/-- Sport record: id, display name and price per hour. -/
structure Sport where
  id : String
  name : String
  pricePerHour : Nat
deriving DecidableEq, Repr

/-- Stored booking record.  The field set mirrors the stored object:
id, uuid (public reference), customer name and phone, sport and court
ids, date (epoch day; see the file header), start time (as stored, a
string such as "09:00"), whole hours, amount, and status string. -/
structure Booking where
  id : Nat
  uuid : String
  name : String
  phone : String
  sportId : String
  courtId : String
  date : Nat
  startTime : String
  hours : Nat
  amount : Nat
  status : String
deriving DecidableEq, Repr

/-- Payload accepted by createBooking (InsertBooking): all booking
fields except id/uuid, with an optional status. -/
structure InsertBooking where
  name : String
  phone : String
  sportId : String
  courtId : String
  date : Nat
  startTime : String
  hours : Nat
  amount : Nat
  status : Option String
deriving DecidableEq, Repr

/-- One slot of the availability grid. -/
structure TimeSlot where
  time : String
  displayTime : String
  available : Bool
  bookingId : Option Nat
deriving DecidableEq, Repr

/-- The dashboard metrics fields the claims are about.  The occupancy
percentages of the source use floating-point division and Math.round and
are outside every claim, so they are not embedded. -/
structure DashboardMetrics where
  todayRevenue : Nat
  weekRevenue : Nat
  monthRevenue : Nat
  totalBookings : Nat
deriving DecidableEq, Repr

/-- Whole state of MemStorage: courts, sports, the booking map (as an
insertion-ordered list, the iteration order of a JavaScript Map), and
the fresh-id counter modelling randomUUID. -/
structure StoreState where
  courts : List Court
  sports : List Sport
  bookings : List Booking
  nextId : Nat
deriving DecidableEq, Repr

/-- A storage state with no records. -/
def emptyState : StoreState :=
  { courts := [], sports := [], bookings := [], nextId := 0 }

/-- MemStorage.OPENING_HOUR. -/
def OPENING_HOUR : Nat := 6

/-- MemStorage.CLOSING_HOUR. -/
def CLOSING_HOUR : Nat := 23

/-- Decimal value of a list of digit characters. -/
def digitsToNat (l : List Char) : Nat :=
  l.foldl (fun n c => n * 10 + (c.toNat - 48)) 0

/-- Models parseInt(s.split(":")[0], 10): the leading decimal digits of
the text before the first colon; none when there is no leading digit,
the case where parseInt yields NaN. -/
def parseHour (s : String) : Option Nat :=
  let first := s.data.takeWhile (fun c => c != ':')
  let digits := first.takeWhile Char.isDigit
  if digits.isEmpty then none else some (digitsToNat digits)

/-- Models the status defaulting of createBooking: booking.status ||
"booked" (the empty string is falsy in JavaScript). -/
def defaultStatus : Option String → String
  | none => "booked"
  | some st => if st = "" then "booked" else st

/-- JavaScript Map.set keyed on the booking id: replace the entry
holding the key in place, else append. -/
def mapSet : List Booking → Booking → List Booking
  | [], b => [b]
  | x :: xs, b => if x.id == b.id then b :: xs else x :: mapSet xs b

/-- MemStorage.getBooking: keyed lookup in the booking map. -/
def getBooking (s : StoreState) (id : Nat) : Option Booking :=
  s.bookings.find? (fun b => b.id == id)

/-- MemStorage.getBookingsForDateAndCourt: the bookings on the given
date and court whose status is booked. -/
def getBookingsForDateAndCourt (s : StoreState) (date : Nat) (courtId : String) : List Booking :=
  s.bookings.filter (fun b => b.date == date && b.courtId == courtId && b.status == "booked")

/-- The three-clause conflict test of checkSlotAvailability, on the
requested range and one existing booking's range. -/
def conflictClauses (reqStart reqEnd bStart bEnd : Nat) : Bool :=
  (decide (reqStart ≥ bStart) && decide (reqStart < bEnd)) ||
  (decide (reqEnd > bStart) && decide (reqEnd ≤ bEnd)) ||
  (decide (reqStart ≤ bStart) && decide (reqEnd ≥ bEnd))

/-- Conflict of the requested range against one stored booking: parse
the booking's start hour and apply the three clauses.  A booking whose
start time does not parse yields NaN in the source, every clause
comparison is false, and no conflict is reported. -/
def bookingConflict (reqStart reqEnd : Nat) (b : Booking) : Bool :=
  match parseHour b.startTime with
  | none => false
  | some bs => conflictClauses reqStart reqEnd bs (bs + b.hours)

/-- MemStorage.checkSlotAvailability.  When the requested start time
does not parse, every comparison against NaN in the source is false: the
window test does not fire and no clause fires, so the source returns
true. -/
def checkSlotAvailability (s : StoreState) (courtId : String) (date : Nat)
    (startTime : String) (hours : Nat) : Bool :=
  let existing := getBookingsForDateAndCourt s date courtId
  match parseHour startTime with
  | none => true
  | some reqStart =>
    let reqEnd := reqStart + hours
    if reqStart < OPENING_HOUR ∨ reqEnd > CLOSING_HOUR then false
    else existing.all (fun b => !(bookingConflict reqStart reqEnd b))

/-- MemStorage.createBooking: assign a fresh id and public reference,
default the status, and store the record. -/
def createBooking (s : StoreState) (r : InsertBooking) : Booking × StoreState :=
  let b : Booking :=
    { id := s.nextId, uuid := toString s.nextId, name := r.name, phone := r.phone,
      sportId := r.sportId, courtId := r.courtId, date := r.date,
      startTime := r.startTime, hours := r.hours, amount := r.amount,
      status := defaultStatus r.status }
  (b, { s with bookings := mapSet s.bookings b, nextId := s.nextId + 1 })

/-- MemStorage.updateBookingStatus: look the booking up by id; when
absent return undefined and leave the map alone; when present store a
copy with the new status. -/
def updateBookingStatus (s : StoreState) (id : Nat) (status : String) :
    Option Booking × StoreState :=
  match getBooking s id with
  | none => (none, s)
  | some b =>
    let updated := { b with status := status }
    (some updated, { s with bookings := mapSet s.bookings updated })

/-- Outcome of the create route. -/
inductive CreateResult where
  | created (b : Booking)
  | conflict
deriving DecidableEq, Repr

/-- Outcome of the cancel and complete routes. -/
inductive RouteResult where
  | ok (b : Booking)
  | notFound
  | err (msg : String)
deriving DecidableEq, Repr

/-- POST /api/bookings after request-shape validation: check the slot,
answer 409 when taken, otherwise create and return the booking. -/
def createRoute (s : StoreState) (r : InsertBooking) : CreateResult × StoreState :=
  if checkSlotAvailability s r.courtId r.date r.startTime r.hours then
    let p := createBooking s r
    (CreateResult.created p.1, p.2)
  else (CreateResult.conflict, s)

/-- POST /api/bookings/:id/cancel: 404 when absent, 400 when already
cancelled, otherwise set the status to cancelled. -/
def cancelRoute (s : StoreState) (id : Nat) : RouteResult × StoreState :=
  match getBooking s id with
  | none => (RouteResult.notFound, s)
  | some b =>
    if b.status == "cancelled" then
      (RouteResult.err ("Booking is already cancelled"), s)
    else
      match updateBookingStatus s id "cancelled" with
      | (some b', s') => (RouteResult.ok b', s')
      | (none, s') => (RouteResult.notFound, s')

/-- POST /api/bookings/:id/complete: 404 when absent, 400 when the
booking is cancelled, otherwise set the status to completed. -/
def completeRoute (s : StoreState) (id : Nat) : RouteResult × StoreState :=
  match getBooking s id with
  | none => (RouteResult.notFound, s)
  | some b =>
    if b.status == "cancelled" then
      (RouteResult.err ("Cannot complete a cancelled booking"), s)
    else
      match updateBookingStatus s id "completed" with
      | (some b', s') => (RouteResult.ok b', s')
      | (none, s') => (RouteResult.notFound, s')

/-- Does the stored booking cover the given hour?  The source adds
startHour + 0, ..., startHour + hours - 1 to a set and asks membership;
an unparseable start adds only NaN, which equals no hour. -/
def coversHour (b : Booking) (h : Nat) : Bool :=
  match parseHour b.startTime with
  | none => false
  | some bs => (List.range b.hours).any (fun k => bs + k == h)

/-- Zero-padded "HH:00" time token of a slot. -/
def hourToken (h : Nat) : String :=
  (if h < 10 then ("0" ++ toString h) else toString h) ++ ":00"

/-- Human-readable 12-hour label of a slot. -/
def hourDisplay (h : Nat) : String :=
  toString (if h > 12 then h - 12 else h) ++ ":00 " ++ (if h ≥ 12 then ("PM") else ("AM"))

/-- One grid slot for a given hour, over the day's booked bookings for
one court: the hour is available when no booked booking covers it, and
the attached booking id is the id of the first booked booking whose
start hour equals the slot's hour, when there is one. -/
def slotFor (courtBookings : List Booking) (hour : Nat) : TimeSlot :=
  { time := hourToken hour
    displayTime := hourDisplay hour
    available := !(courtBookings.any (fun b => coversHour b hour))
    bookingId := (courtBookings.find? (fun b => parseHour b.startTime == some hour)).map
      (fun b => b.id) }

/-- The inner loop of MemStorage.getAvailability for one court: one
slot per whole hour from OPENING_HOUR up to but excluding CLOSING_HOUR. -/
def gridForCourt (s : StoreState) (date : Nat) (courtId : String) : List TimeSlot :=
  let courtBookings := getBookingsForDateAndCourt s date courtId
  (List.range (CLOSING_HOUR - OPENING_HOUR)).map (fun k => slotFor courtBookings (OPENING_HOUR + k))

/-- MemStorage.getAvailability: the courts, the sports, and the per-court
slot grids keyed by court id. -/
def getAvailability (s : StoreState) (date : Nat) :
    List Court × List Sport × List (String × List TimeSlot) :=
  (s.courts, s.sports, s.courts.map (fun c => (c.id, gridForCourt s date c.id)))

/-- The source's reduce((sum, b) => sum + b.amount, 0). -/
def sumAmounts (l : List Booking) : Nat :=
  l.foldl (fun sum b => sum + b.amount) 0

/-- MemStorage.getDashboardMetrics restricted to the revenue fields: the
clock-derived window bounds today, weekStart and monthStart are passed
in, exactly the values the source computes from new Date() before the
pure part begins. -/
def getDashboardMetrics (s : StoreState) (today weekStart monthStart : Nat) :
    DashboardMetrics :=
  let bookings := s.bookings.filter (fun b => b.status == "booked" || b.status == "completed")
  { todayRevenue := sumAmounts (bookings.filter (fun b => b.date == today))
    weekRevenue := sumAmounts (bookings.filter (fun b => decide (b.date ≥ weekStart)))
    monthRevenue := sumAmounts (bookings.filter (fun b => decide (b.date ≥ monthStart)))
    totalBookings := bookings.length }

/-- date-fns startOfWeek with its default weekStartsOn = 0: the most
recent Sunday on or before the day.  Epoch day 0 (1970-01-01) is a
Thursday, so (d + 4) % 7 is the JavaScript getDay value of epoch day d. -/
def startOfWeekSunday (d : Nat) : Nat :=
  d - (d + 4) % 7

/-- Monday-based week start, as the specification's wording of the week
window states it; written for comparison against the code's
startOfWeekSunday. -/
def startOfWeekMondaySpec (d : Nat) : Nat :=
  d - (d + 3) % 7

/-- Week revenue as the specification's words state it: the sum of
amount over bookings whose status is booked or completed and whose date
falls on or after the start of the current week, the week starting on
Monday.  Spec-side definition, for comparison with getDashboardMetrics. -/
def weekRevenueMondaySpec (s : StoreState) (today : Nat) : Nat :=
  sumAmounts (s.bookings.filter (fun b =>
    (b.status == "booked" || b.status == "completed") &&
      decide (b.date ≥ startOfWeekMondaySpec today)))

/-- Every stored id lies below the fresh-id counter, so the id
createBooking assigns next is new — the counterpart of randomUUID
producing fresh keys. -/
def IdsFresh (s : StoreState) : Prop :=
  ∀ b ∈ s.bookings, b.id < s.nextId

/-- When both bookings are booked on the same court and date, no hour
lies in both half-open ranges; ranges of unparseable start times cover
no hour, and adjacent ranges (one ending where the other starts) share
no hour and so are disjoint. -/
def BookedDisjoint (b1 b2 : Booking) : Prop :=
  b1.status = "booked" → b2.status = "booked" →
    b1.courtId = b2.courtId → b1.date = b2.date →
    ∀ h : Nat, ¬(coversHour b1 h = true ∧ coversHour b2 h = true)

/-- No two distinct bookings of the list double-book a slot. -/
def BookedOverlapFree (l : List Booking) : Prop :=
  l.Pairwise BookedDisjoint

/-- The storage states reachable from a given initial state through the
public operations: booking creation via the create route and status
updates via the cancel and complete routes. -/
inductive Reachable (init : StoreState) : StoreState → Prop
  | refl : Reachable init init
  | create (r : InsertBooking) {s : StoreState} :
      Reachable init s → Reachable init (createRoute s r).2
  | cancel (id : Nat) {s : StoreState} :
      Reachable init s → Reachable init (cancelRoute s id).2
  | complete (id : Nat) {s : StoreState} :
      Reachable init s → Reachable init (completeRoute s id).2

/-- The amount the booking form computes before submitting: the selected
sport's pricePerHour times the chosen hours (calculatedAmount in the
client's CreateBooking component). -/
def clientAmount (sport : Sport) (hours : Nat) : Nat :=
  sport.pricePerHour * hours

/-- The request body the booking form submits: the form fields plus the
client-computed amount, with no status field. -/
def clientRequest (sport : Sport) (name phone courtId : String) (date : Nat)
    (startTime : String) (hours : Nat) : InsertBooking :=
  { name := name, phone := phone, sportId := sport.id, courtId := courtId,
    date := date, startTime := startTime, hours := hours,
    amount := clientAmount sport hours, status := none }

/-! ### Concrete stores used by witnesses and counterexamples -/

/-- A booked two-hour cricket booking at "09:00" used by the C10 witness. -/
def w10b0 : Booking :=
  { id := 0, uuid := "A0", name := "Ahmed", phone := "0300", sportId := "cricket",
    courtId := "court-a", date := 20738, startTime := "09:00", hours := 2,
    amount := 4000, status := "booked" }

/-- A booked one-hour football booking at "14:00" used by the C10 witness. -/
def w10b1 : Booking :=
  { id := 1, uuid := "A1", name := "Ali", phone := "0321", sportId := "football",
    courtId := "court-b", date := 20738, startTime := "14:00", hours := 1,
    amount := 2500, status := "booked" }

/-- Two-booking store used by the C10 witness. -/
def w10State : StoreState :=
  { courts := [], sports := [], bookings := [w10b0, w10b1], nextId := 2 }

/-- A completed booking, for the C5 counterexample and witness. -/
def c5Booking : Booking :=
  { id := 0, uuid := "C5", name := "Ahmed", phone := "0300", sportId := "cricket",
    courtId := "court-a", date := 20738, startTime := "09:00", hours := 2,
    amount := 4000, status := "completed" }

/-- One-completed-booking store for the C5 counterexample and witness. -/
def c5State : StoreState :=
  { courts := [], sports := [], bookings := [c5Booking], nextId := 1 }

/-- A booked two-hour booking at "09:00", for the C7 counterexample and
witness. -/
def c7Booking : Booking :=
  { id := 0, uuid := "C7", name := "Ahmed", phone := "0300", sportId := "cricket",
    courtId := "court-a", date := 20738, startTime := "09:00", hours := 2,
    amount := 4000, status := "booked" }

/-- Store holding c7Booking, for the C7 counterexample and witness. -/
def c7State : StoreState :=
  { courts := [{ id := "court-a", name := "Court A" }], sports := [],
    bookings := [c7Booking], nextId := 1 }

/-- The 10:00 grid slot of c7State, for the C7 witness. -/
def c7SlotTen : TimeSlot :=
  { time := "10:00", displayTime := "10:00 AM", available := false, bookingId := none }

/-- A booked 2500 booking dated Sunday epoch day 20737, for C9. -/
def c9Booking : Booking :=
  { id := 0, uuid := "C9", name := "Ali", phone := "0321", sportId := "football",
    courtId := "court-b", date := 20737, startTime := "14:00", hours := 1,
    amount := 2500, status := "booked" }

/-- A cancelled 5000 booking in the same week window, for the C9 witness. -/
def c9Cancelled : Booking :=
  { id := 1, uuid := "C9X", name := "Usman", phone := "0345", sportId := "football",
    courtId := "court-a", date := 20738, startTime := "16:00", hours := 2,
    amount := 5000, status := "cancelled" }

/-- Store holding c9Booking, for the C9 counterexample and witness. -/
def c9State : StoreState :=
  { courts := [], sports := [], bookings := [c9Booking], nextId := 1 }

/-- The selected sport of the C6 scenario: cricket at 2000 per hour. -/
def c6Sport : Sport :=
  { id := "cricket", name := "Cricket", pricePerHour := 2000 }

/-- A create payload whose amount, 999, differs from the selected
sport's pricePerHour times hours (2000 * 2 = 4000).  The request shape
passes insertBookingSchema, whose amount is an unconstrained integer. -/
def c6BadReq : InsertBooking :=
  { name := "Mallory", phone := "0399", sportId := "cricket", courtId := "court-a",
    date := 20738, startTime := "10:00", hours := 2, amount := 999, status := none }

/-- Store whose sports catalog holds c6Sport, for the C6 scenario. -/
def c6SportsState : StoreState :=
  { courts := [], sports := [c6Sport], bookings := [], nextId := 0 }

/-- The booking the create route stores for c6BadReq. -/
def c6Created : Booking :=
  { id := 0, uuid := "0", name := "Mallory", phone := "0399", sportId := "cricket",
    courtId := "court-a", date := 20738, startTime := "10:00", hours := 2,
    amount := 999, status := "booked" }

/-- The store after the c6BadReq creation. -/
def c6CreatedState : StoreState :=
  { courts := [], sports := [c6Sport], bookings := [c6Created], nextId := 1 }

/-- First request of the C1 witness: "09:00" for two hours. -/
def c1ReqA : InsertBooking :=
  { name := "Ahmed", phone := "0300", sportId := "cricket", courtId := "court-a",
    date := 20738, startTime := "09:00", hours := 2, amount := 4000, status := none }

/-- Second request of the C1 witness: the adjacent "11:00" hour. -/
def c1ReqB : InsertBooking :=
  { name := "Ali", phone := "0321", sportId := "cricket", courtId := "court-a",
    date := 20738, startTime := "11:00", hours := 1, amount := 2000, status := none }

/-- The store reached by the two C1 witness create calls. -/
def c1Store : StoreState :=
  (createRoute (createRoute emptyState c1ReqA).2 c1ReqB).2

/-- The booking the first C1 witness call stores. -/
def c1bA : Booking :=
  { id := 0, uuid := "0", name := "Ahmed", phone := "0300", sportId := "cricket",
    courtId := "court-a", date := 20738, startTime := "09:00", hours := 2,
    amount := 4000, status := "booked" }

/-- The booking the second C1 witness call stores. -/
def c1bB : Booking :=
  { id := 1, uuid := "1", name := "Ali", phone := "0321", sportId := "cricket",
    courtId := "court-a", date := 20738, startTime := "11:00", hours := 1,
    amount := 2000, status := "booked" }

/-- A booked two-hour booking at "09:00", completed and rebooked by the
C8 witness. -/
def c8Booking : Booking :=
  { id := 0, uuid := "C8", name := "Ahmed", phone := "0300", sportId := "cricket",
    courtId := "court-a", date := 20738, startTime := "09:00", hours := 2,
    amount := 4000, status := "booked" }

/-- Store holding c8Booking, for the C8 witness. -/
def c8State : StoreState :=
  { courts := [], sports := [], bookings := [c8Booking], nextId := 1 }

/-- The request both concurrent create calls of the C2 schedule carry. -/
def c2Req : InsertBooking :=
  { name := "Ahmed", phone := "0300", sportId := "cricket", courtId := "court-a",
    date := 20738, startTime := "09:00", hours := 1, amount := 2000, status := none }

/-! ### Helper lemmas -/

theorem conflictClauses_iff (reqStart reqEnd bStart bEnd : Nat) :
    conflictClauses reqStart reqEnd bStart bEnd = true ↔
      ((bStart ≤ reqStart ∧ reqStart < bEnd) ∨ (bStart < reqEnd ∧ reqEnd ≤ bEnd) ∨
        (reqStart ≤ bStart ∧ bEnd ≤ reqEnd)) := by
  simp [conflictClauses, Bool.or_eq_true, Bool.and_eq_true, decide_eq_true_eq]
  omega

theorem conflictClauses_of_shared_hour {reqStart reqEnd bStart bEnd h : Nat}
    (hr : reqStart ≤ h ∧ h < reqEnd) (hb : bStart ≤ h ∧ h < bEnd) :
    conflictClauses reqStart reqEnd bStart bEnd = true := by
  rw [conflictClauses_iff]
  omega

theorem coversHour_iff (b : Booking) (h : Nat) :
    coversHour b h = true ↔
      ∃ bs, parseHour b.startTime = some bs ∧ bs ≤ h ∧ h < bs + b.hours := by
  unfold coversHour
  cases hp : parseHour b.startTime with
  | none => simp
  | some bs =>
    simp only [List.any_eq_true, List.mem_range, beq_iff_eq, Option.some.injEq]
    constructor
    · rintro ⟨k, hk, hkh⟩
      exact ⟨bs, rfl, by omega⟩
    · rintro ⟨bs', hbs', h1, h2⟩
      cases hbs'
      exact ⟨h - bs, by omega, by omega⟩

theorem checkSlotAvailability_spec (s : StoreState) (courtId : String) (date : Nat)
    (startTime : String) (hours reqStart : Nat) (hp : parseHour startTime = some reqStart) :
    checkSlotAvailability s courtId date startTime hours = true ↔
      (OPENING_HOUR ≤ reqStart ∧ reqStart + hours ≤ CLOSING_HOUR ∧
        ∀ b ∈ getBookingsForDateAndCourt s date courtId,
          bookingConflict reqStart (reqStart + hours) b = false) := by
  unfold checkSlotAvailability
  rw [hp]
  dsimp only
  by_cases hwin : reqStart < OPENING_HOUR ∨ reqStart + hours > CLOSING_HOUR
  · rw [if_pos hwin]
    simp only [Bool.false_eq_true, false_iff]
    omega
  · rw [if_neg hwin]
    simp only [List.all_eq_true, Bool.not_eq_true']
    constructor
    · intro hall
      exact ⟨by omega, by omega, hall⟩
    · intro hall
      exact hall.2.2

theorem bookingConflict_false_disjoint {b : Booking} {reqStart reqEnd : Nat}
    (hc : bookingConflict reqStart reqEnd b = false) (h : Nat) :
    ¬(coversHour b h = true ∧ reqStart ≤ h ∧ h < reqEnd) := by
  rintro ⟨hcov, hh1, hh2⟩
  obtain ⟨bs, hpb, hb1, hb2⟩ := (coversHour_iff b h).mp hcov
  unfold bookingConflict at hc
  rw [hpb] at hc
  dsimp only at hc
  rw [conflictClauses_of_shared_hour ⟨hh1, hh2⟩ ⟨hb1, hb2⟩] at hc
  exact Bool.true_eq_false.mp hc

theorem find?_decomp {l : List Booking} {p : Booking → Bool} {b : Booking}
    (h : l.find? p = some b) :
    ∃ l1 l2, l = l1 ++ b :: l2 ∧ (∀ x ∈ l1, p x = false) ∧ p b = true := by
  induction l with
  | nil => simp at h
  | cons x xs ih =>
    by_cases hx : p x = true
    · rw [List.find?_cons_of_pos _ hx] at h
      cases h
      exact ⟨[], xs, rfl, by simp, hx⟩
    · rw [List.find?_cons_of_neg _ hx] at h
      obtain ⟨l1, l2, hdec, hl1, hb⟩ := ih h
      refine ⟨x :: l1, l2, by rw [hdec]; rfl, ?_, hb⟩
      intro y hy
      rcases List.mem_cons.mp hy with hy | hy
      · subst hy; simpa using hx
      · exact hl1 y hy

theorem mapSet_replace {l1 l2 : List Booking} {b nb : Booking}
    (hid : nb.id = b.id) (hl1 : ∀ x ∈ l1, (x.id == b.id) = false) :
    mapSet (l1 ++ b :: l2) nb = l1 ++ nb :: l2 := by
  induction l1 with
  | nil =>
    simp only [List.nil_append, mapSet]
    rw [if_pos (by rw [hid]; exact beq_self_eq_true b.id)]
  | cons x xs ih =>
    simp only [List.cons_append, mapSet]
    rw [if_neg (by rw [hid]; intro hc; rw [hl1 x (List.mem_cons_self x xs)] at hc; cases hc)]
    simp only [List.append_eq]
    rw [ih (fun y hy => hl1 y (List.mem_cons_of_mem x hy))]

theorem mapSet_append_of_fresh {l : List Booking} {b : Booking}
    (h : ∀ x ∈ l, (x.id == b.id) = false) :
    mapSet l b = l ++ [b] := by
  induction l with
  | nil => rfl
  | cons x xs ih =>
    simp only [mapSet]
    rw [if_neg (by rw [h x (List.mem_cons_self x xs)]; exact Bool.false_ne_true)]
    rw [ih (fun y hy => h y (List.mem_cons_of_mem x hy)), List.cons_append]

theorem mem_of_mem_mapSet {l : List Booking} {b y : Booking}
    (h : y ∈ mapSet l b) : y ∈ l ∨ y = b := by
  induction l with
  | nil => simp [mapSet] at h; right; exact h
  | cons x xs ih =>
    simp only [mapSet] at h
    by_cases hx : (x.id == b.id) = true
    · rw [if_pos hx] at h
      rcases List.mem_cons.mp h with h | h
      · right; exact h
      · left; exact List.mem_cons_of_mem x h
    · rw [if_neg hx] at h
      rcases List.mem_cons.mp h with h | h
      · left; rw [h]; exact List.mem_cons_self x xs
      · rcases ih h with h | h
        · left; exact List.mem_cons_of_mem x h
        · right; exact h

theorem pairwise_mapSet {R : Booking → Booking → Prop} {l : List Booking} {b : Booking}
    (hl : ∀ x, R x b) (hr : ∀ x, R b x) (h : l.Pairwise R) :
    (mapSet l b).Pairwise R := by
  induction l with
  | nil => exact List.pairwise_cons.mpr ⟨by simp, List.Pairwise.nil⟩
  | cons x xs ih =>
    rcases List.pairwise_cons.mp h with ⟨hx, hxs⟩
    simp only [mapSet]
    by_cases hid : (x.id == b.id) = true
    · rw [if_pos hid]
      exact List.pairwise_cons.mpr ⟨fun y _ => hr y, hxs⟩
    · rw [if_neg hid]
      refine List.pairwise_cons.mpr ⟨?_, ih hxs⟩
      intro y hy
      rcases mem_of_mem_mapSet hy with hy | hy
      · exact hx y hy
      · rw [hy]; exact hl x

theorem sumAmounts_eq_foldl (l : List Booking) (n : Nat) :
    l.foldl (fun sum b => sum + b.amount) n = n + (l.map (fun b => b.amount)).sum := by
  induction l generalizing n with
  | nil => simp
  | cons x xs ih =>
    simp only [List.foldl_cons, List.map_cons, List.sum_cons, ih]
    omega

theorem sumAmounts_eq (l : List Booking) :
    sumAmounts l = (l.map (fun b => b.amount)).sum := by
  unfold sumAmounts
  rw [sumAmounts_eq_foldl]
  omega

theorem find?_map_amount_congr {l1 l2 : List Booking} {x y : Booking}
    (hid : y.id = x.id) (ham : y.amount = x.amount) (i : Nat) :
    ((l1 ++ y :: l2).find? (fun b => b.id == i)).map (fun b => b.amount) =
      ((l1 ++ x :: l2).find? (fun b => b.id == i)).map (fun b => b.amount) := by
  induction l1 with
  | nil =>
    simp only [List.nil_append, List.find?_cons]
    rw [hid]
    cases hx : (x.id == i) with
    | true => simp [ham]
    | false => rfl
  | cons z l1 ih =>
    simp only [List.cons_append, List.find?_cons]
    cases hz : (z.id == i) with
    | true => rfl
    | false => exact ih

theorem find?_id_append_singleton (l : List Booking) (b : Booking)
    (h : ∀ x ∈ l, (x.id == b.id) = false) :
    ((l ++ [b]).find? (fun x => x.id == b.id)).map (fun x => x.amount) = some b.amount := by
  induction l with
  | nil => simp [List.find?]
  | cons z l ih =>
    have hz := h z (List.mem_cons_self z l)
    simp only [List.cons_append, List.find?_cons, hz]
    exact ih (fun x hx => h x (List.mem_cons_of_mem z hx))

theorem mem_mapSet_self (l : List Booking) (b : Booking) : b ∈ mapSet l b := by
  induction l with
  | nil => exact List.mem_singleton_self b
  | cons x xs ih =>
    simp only [mapSet]
    by_cases hx : (x.id == b.id) = true
    · rw [if_pos hx]; exact List.mem_cons_self b xs
    · rw [if_neg hx]; exact List.mem_cons_of_mem x ih

theorem getBooking_amount_stable (t : StoreState) (id : Nat) (st : String) (i : Nat) :
    (getBooking (updateBookingStatus t id st).2 i).map (fun b => b.amount) =
      (getBooking t i).map (fun b => b.amount) := by
  unfold updateBookingStatus
  cases hfind : getBooking t id with
  | none => rfl
  | some b =>
    obtain ⟨l1, l2, hdec, hl1, hpb⟩ := find?_decomp hfind
    have hbid : b.id = id := by simpa using hpb
    have hms : mapSet t.bookings { b with status := st } = l1 ++ { b with status := st } :: l2 := by
      rw [hdec]
      exact mapSet_replace rfl (by intro x hx; rw [hbid]; exact hl1 x hx)
    dsimp only
    show ((mapSet t.bookings { b with status := st }).find? (fun b => b.id == i)).map
        (fun b => b.amount) = (t.bookings.find? (fun b => b.id == i)).map (fun b => b.amount)
    rw [hms, hdec]
    exact @find?_map_amount_congr l1 l2 b { b with status := st } rfl rfl i

/-! ### Claims -/

/-- C3: for half-open hour ranges with reqStart < reqEnd and
bStart < bEnd, the three-clause conflict test used by
checkSlotAvailability fires exactly when reqStart < bEnd and
bStart < reqEnd. -/
theorem overlap_predicate_single_inequality (reqStart reqEnd bStart bEnd : Nat)
    (h1 : reqStart < reqEnd) (h2 : bStart < bEnd) :
    conflictClauses reqStart reqEnd bStart bEnd = true ↔
      (reqStart < bEnd ∧ bStart < reqEnd) := by
  rw [conflictClauses_iff]
  omega

/-- C3 witness: the three-clause test agrees with the single predicate
on the concrete nonempty ranges 9 to 11 and 10 to 12. -/
theorem overlap_predicate_single_inequality_witness :
    conflictClauses 9 11 10 12 = true ↔ (9 < 12 ∧ 10 < 11) :=
  overlap_predicate_single_inequality 9 11 10 12 (by decide) (by decide)

/-- C4: whenever the parsed start hour falls below the opening hour, or
the start hour plus the requested hours runs past the closing hour,
checkSlotAvailability answers false whatever bookings the store holds. -/
theorem outside_window_rejected (s : StoreState) (courtId : String) (date : Nat)
    (startTime : String) (hours reqStart : Nat)
    (hp : parseHour startTime = some reqStart)
    (hout : reqStart < OPENING_HOUR ∨ reqStart + hours > CLOSING_HOUR) :
    checkSlotAvailability s courtId date startTime hours = false := by
  unfold checkSlotAvailability
  rw [hp]
  dsimp only
  rw [if_pos hout]

/-- C4 witness: a request at "05:00", one hour before opening, is
rejected on the empty store. -/
theorem outside_window_rejected_witness :
    checkSlotAvailability emptyState "court-a" 20738 "05:00" 1 = false :=
  outside_window_rejected emptyState "court-a" 20738 "05:00" 1 5 (by decide)
    (Or.inl (by decide))

/-- C10: updateBookingStatus on an id held in the store replaces only
that booking's status: the result splits the old booking list at the
looked-up record, keeps every other booking and the courts, sports and
id counter exactly as they were, and the replacement record agrees with
the old one on every field except status; on an absent id it reports
not-found and returns the state untouched. -/
theorem updateBookingStatus_frame (s : StoreState) (id : Nat) (status : String) :
    (getBooking s id = none → updateBookingStatus s id status = (none, s)) ∧
    (∀ b, getBooking s id = some b →
      ∃ b' l1 l2,
        updateBookingStatus s id status = (some b', { s with bookings := l1 ++ b' :: l2 }) ∧
        s.bookings = l1 ++ b :: l2 ∧
        b'.status = status ∧ b'.id = b.id ∧ b'.uuid = b.uuid ∧ b'.name = b.name ∧
        b'.phone = b.phone ∧ b'.sportId = b.sportId ∧ b'.courtId = b.courtId ∧
        b'.date = b.date ∧ b'.startTime = b.startTime ∧ b'.hours = b.hours ∧
        b'.amount = b.amount) := by
  constructor
  · intro hnone
    unfold updateBookingStatus
    rw [hnone]
  · intro b hb
    obtain ⟨l1, l2, hdec, hl1, hpb⟩ := find?_decomp hb
    have hbid : b.id = id := by simpa using hpb
    refine ⟨{ b with status := status }, l1, l2, ?_, hdec, rfl, rfl, rfl, rfl, rfl, rfl,
      rfl, rfl, rfl, rfl, rfl⟩
    unfold updateBookingStatus
    rw [hb]
    dsimp only
    congr 1
    cases s with
    | mk courts sports bookings nextId =>
      simp only [StoreState.mk.injEq, and_true, true_and]
      have : bookings = l1 ++ b :: l2 := hdec
      rw [this]
      exact mapSet_replace rfl (by intro x hx; rw [hbid]; exact hl1 x hx)

/-- C10 witness: updating the status of the second of two stored
bookings replaces it in place and leaves the first untouched. -/
theorem updateBookingStatus_frame_witness :
    ∃ b' l1 l2,
      updateBookingStatus w10State 1 "cancelled" =
        (some b', { w10State with bookings := l1 ++ b' :: l2 }) ∧
      w10State.bookings = l1 ++ w10b1 :: l2 ∧
      b'.status = "cancelled" ∧ b'.id = w10b1.id ∧ b'.uuid = w10b1.uuid ∧
      b'.name = w10b1.name ∧ b'.phone = w10b1.phone ∧ b'.sportId = w10b1.sportId ∧
      b'.courtId = w10b1.courtId ∧ b'.date = w10b1.date ∧
      b'.startTime = w10b1.startTime ∧ b'.hours = w10b1.hours ∧ b'.amount = w10b1.amount :=
  (updateBookingStatus_frame w10State 1 "cancelled").2 w10b1 (by decide)

/-- C5 counterexample: on a store holding one completed booking, the
cancel route accepts the request and rewrites the status to cancelled,
so a transition out of the completed state is neither rejected nor
status-preserving. -/
theorem cancel_of_completed_succeeds :
    c5Booking.status = "completed" ∧
    (cancelRoute c5State 0).1 = RouteResult.ok { c5Booking with status := "cancelled" } ∧
    (cancelRoute c5State 0).2.bookings = [{ c5Booking with status := "cancelled" }] := by
  decide

/-- C5 amended: the routes reject exactly the transitions out of
cancelled — cancelling an already-cancelled booking and completing a
cancelled booking — leaving the state untouched, and report not-found
on an absent id; from any other status, both cancelling and completing
are accepted, so cancelling after completing succeeds and ends in
cancelled while completing after cancelling is rejected and stays
cancelled. -/
theorem status_transitions_of_code (s : StoreState) (id : Nat) :
    (getBooking s id = none →
      cancelRoute s id = (RouteResult.notFound, s) ∧
      completeRoute s id = (RouteResult.notFound, s)) ∧
    (∀ b, getBooking s id = some b →
      (b.status = "cancelled" →
        cancelRoute s id = (RouteResult.err ("Booking is already cancelled"), s) ∧
        completeRoute s id = (RouteResult.err ("Cannot complete a cancelled booking"), s)) ∧
      (b.status ≠ "cancelled" →
        (cancelRoute s id).1 = RouteResult.ok { b with status := "cancelled" } ∧
        (completeRoute s id).1 = RouteResult.ok { b with status := "completed" })) := by
  constructor
  · intro hnone
    constructor
    · unfold cancelRoute; rw [hnone]
    · unfold completeRoute; rw [hnone]
  · intro b hb
    constructor
    · intro hcanc
      have hbeq : (b.status == "cancelled") = true := by rw [hcanc]; rfl
      constructor
      · unfold cancelRoute; rw [hb]; dsimp only; rw [if_pos hbeq]
      · unfold completeRoute; rw [hb]; dsimp only; rw [if_pos hbeq]
    · intro hne
      have hbeq : (b.status == "cancelled") = false := beq_eq_false_iff_ne.mpr hne
      have hupd1 : updateBookingStatus s id "cancelled" =
          (some { b with status := "cancelled" },
            { s with bookings := mapSet s.bookings { b with status := "cancelled" } }) := by
        unfold updateBookingStatus; rw [hb]
      have hupd2 : updateBookingStatus s id "completed" =
          (some { b with status := "completed" },
            { s with bookings := mapSet s.bookings { b with status := "completed" } }) := by
        unfold updateBookingStatus; rw [hb]
      constructor
      · unfold cancelRoute
        rw [hb]
        dsimp only
        rw [if_neg (by rw [hbeq]; exact Bool.false_ne_true), hupd1]
      · unfold completeRoute
        rw [hb]
        dsimp only
        rw [if_neg (by rw [hbeq]; exact Bool.false_ne_true), hupd2]

/-- C5 witness: on the concrete one-completed-booking store, cancelling
is accepted and yields the cancelled copy of the record. -/
theorem status_transitions_of_code_witness :
    (cancelRoute c5State 0).1 = RouteResult.ok { c5Booking with status := "cancelled" } ∧
    (completeRoute c5State 0).1 = RouteResult.ok { c5Booking with status := "completed" } :=
  ((status_transitions_of_code c5State 0).2 c5Booking (by decide)).2 (by decide)

/-- C7 counterexample: with one booked two-hour booking starting at
"09:00", hour 10 lies inside its span, the 10:00 slot is marked
unavailable, yet the slot carries no booking id — the id is attached
only at the start hour, not at every spanned hour. -/
theorem midspan_slot_has_no_booking_id :
    coversHour c7Booking 10 = true ∧
    (gridForCourt c7State 20738 "court-a").get? 4 =
      some { time := "10:00", displayTime := "10:00 AM", available := false,
             bookingId := none } ∧
    c7Booking.id = 0 := by
  decide

/-- C7 amended: the grid for a court and date holds one slot per whole
hour from opening (6) up to but excluding closing (23); every hour a
booked booking on that court and date spans is marked unavailable; and
a slot's booking id is the id of the first stored booked booking whose
parsed start hour equals the slot's hour, when there is one — so hours
covered mid-span carry no id unless some other booking starts there.
The per-court grids are what getAvailability returns, keyed by court
id. -/
theorem grid_marks_spanned_hours (s : StoreState) (date : Nat) (courtId : String) :
    (gridForCourt s date courtId).length = CLOSING_HOUR - OPENING_HOUR ∧
    (∀ k, k < CLOSING_HOUR - OPENING_HOUR →
      (gridForCourt s date courtId).get? k =
        some (slotFor (getBookingsForDateAndCourt s date courtId) (OPENING_HOUR + k))) ∧
    (∀ b ∈ getBookingsForDateAndCourt s date courtId, ∀ h : Nat,
      coversHour b h = true → OPENING_HOUR ≤ h → h < CLOSING_HOUR →
      ∀ slot, (gridForCourt s date courtId).get? (h - OPENING_HOUR) = some slot →
        slot.available = false ∧
        slot.bookingId = ((getBookingsForDateAndCourt s date courtId).find?
          (fun b' => parseHour b'.startTime == some h)).map (fun b' => b'.id)) ∧
    (∀ c ∈ s.courts, (c.id, gridForCourt s date c.id) ∈ (getAvailability s date).2.2) := by
  have hget : ∀ k, k < CLOSING_HOUR - OPENING_HOUR →
      (gridForCourt s date courtId).get? k =
        some (slotFor (getBookingsForDateAndCourt s date courtId) (OPENING_HOUR + k)) := by
    intro k hk
    unfold gridForCourt
    rw [List.get?_map, List.get?_range hk]
    rfl
  refine ⟨?_, hget, ?_, ?_⟩
  · unfold gridForCourt
    rw [List.length_map, List.length_range]
  · intro b hb h hcov h1 h2 slot hslot
    have e1 : OPENING_HOUR = 6 := rfl
    have e2 : CLOSING_HOUR = 23 := rfl
    have hk : h - OPENING_HOUR < CLOSING_HOUR - OPENING_HOUR := by omega
    have hkh : OPENING_HOUR + (h - OPENING_HOUR) = h := by omega
    have := hget (h - OPENING_HOUR) hk
    rw [hkh] at this
    rw [this] at hslot
    cases hslot
    constructor
    · unfold slotFor
      dsimp only
      rw [List.any_eq_true.mpr ⟨b, hb, hcov⟩]
      rfl
    · rfl
  · intro c hc
    exact List.mem_map_of_mem _ hc

/-- C7 witness: on the concrete store, the 10:00 slot spanned by the
"09:00" two-hour booked booking is unavailable, and its booking id is
the find-first-by-start-hour result. -/
theorem grid_marks_spanned_hours_witness :
    c7SlotTen.available = false ∧
    c7SlotTen.bookingId = ((getBookingsForDateAndCourt c7State 20738 "court-a").find?
      (fun b' => parseHour b'.startTime == some 10)).map (fun b' => b'.id) :=
  (grid_marks_spanned_hours c7State 20738 "court-a").2.2.1 c7Booking (by decide) 10
    (by decide) (by decide) (by decide) c7SlotTen (by decide)

/-- C9 counterexample: 2026-10-12 is a Monday (epoch day 20738); the
code's week window opens on the preceding Sunday 20737 (the date-fns
startOfWeek default), so a booked 2500 booking dated that Sunday is
counted by getDashboardMetrics.weekRevenue, while a Monday-start week
as the claim states it would exclude it and total 0. -/
theorem week_revenue_not_monday_based :
    (getDashboardMetrics c9State 20738 (startOfWeekSunday 20738) 20727).weekRevenue = 2500 ∧
    weekRevenueMondaySpec c9State 20738 = 0 := by
  decide

/-- C9 amended: the week revenue sums the amount of exactly those
bookings whose date falls on or after the start of the current week,
where the week starts on Sunday (the date-fns startOfWeek default), and
whose status is booked or completed; a cancelled booking in the same
window contributes 0 to the total. -/
theorem week_revenue_sunday_window (s : StoreState) (today monthStart : Nat) :
    (getDashboardMetrics s today (startOfWeekSunday today) monthStart).weekRevenue =
      ((s.bookings.filter (fun b =>
        (b.status == "booked" || b.status == "completed") &&
          decide (b.date ≥ startOfWeekSunday today))).map (fun b => b.amount)).sum ∧
    (∀ b : Booking, b.status = "cancelled" →
      (getDashboardMetrics { s with bookings := s.bookings ++ [b] } today
          (startOfWeekSunday today) monthStart).weekRevenue =
        (getDashboardMetrics s today (startOfWeekSunday today) monthStart).weekRevenue) := by
  constructor
  · unfold getDashboardMetrics
    dsimp only
    rw [sumAmounts_eq, List.filter_filter]
    congr 1
    congr 1
    apply List.filter_congr
    intro x _
    exact Bool.and_comm _ _
  · intro b hbst
    unfold getDashboardMetrics
    dsimp only
    rw [List.filter_append]
    have : List.filter (fun b => b.status == "booked" || b.status == "completed") [b] = [] := by
      simp [List.filter, hbst]
    rw [this, List.append_nil]

/-- C9 witness: appending a concrete cancelled 5000 booking to the
concrete store leaves the week revenue unchanged. -/
theorem week_revenue_sunday_window_witness :
    (getDashboardMetrics { c9State with bookings := c9State.bookings ++ [c9Cancelled] }
        20738 (startOfWeekSunday 20738) 20727).weekRevenue =
      (getDashboardMetrics c9State 20738 (startOfWeekSunday 20738) 20727).weekRevenue :=
  (week_revenue_sunday_window c9State 20738 20727).2 c9Cancelled (by decide)

theorem createRoute_created {s : StoreState} {r : InsertBooking} {nb : Booking}
    {s2 : StoreState} (h : createRoute s r = (CreateResult.created nb, s2)) :
    nb = (createBooking s r).1 ∧ s2 = (createBooking s r).2 ∧
      checkSlotAvailability s r.courtId r.date r.startTime r.hours = true := by
  unfold createRoute at h
  by_cases hchk : checkSlotAvailability s r.courtId r.date r.startTime r.hours = true
  · rw [if_pos hchk] at h
    have h2 : (CreateResult.created (createBooking s r).1, (createBooking s r).2)
        = (CreateResult.created nb, s2) := h
    have hp := congrArg Prod.fst h2
    have hq := congrArg Prod.snd h2
    simp only [CreateResult.created.injEq] at hp
    exact ⟨hp.symm, hq.symm, hchk⟩
  · rw [if_neg hchk] at h
    exact absurd (congrArg Prod.fst h) (by simp)

/-- C6 counterexample: the create route stores the validated payload's
amount verbatim and never consults the selected sport's pricePerHour,
so a request carrying amount 999 for two hours of cricket at 2000 per
hour is accepted and stored with amount 999, not 4000: amount =
pricePerHour * hours does not hold of every booking created through the
booking-creation operation. -/
theorem create_stores_mismatched_amount :
    c6SportsState.sports.find? (fun sp => sp.id == c6BadReq.sportId) = some c6Sport ∧
    createRoute c6SportsState c6BadReq = (CreateResult.created c6Created, c6CreatedState) ∧
    c6Created.amount = 999 ∧
    c6Sport.pricePerHour * c6BadReq.hours = 4000 ∧
    999 ≠ 4000 := by
  decide

/-- C6 amended: the create route stores the request's amount verbatim —
the server neither recomputes it nor consults the sport's pricePerHour
(only the client booking form computes amount = pricePerHour * hours
before submitting) — and the stored amount is never recomputed
afterward: it survives every later status update (of any booking, to
any status), and replacing the sports catalog wholesale (in particular
any later pricePerHour change) leaves the stored record untouched. -/
theorem amount_stored_verbatim_and_stable
    (s : StoreState) (hwf : ∀ b ∈ s.bookings, b.id < s.nextId)
    (r : InsertBooking) (nb : Booking) (s2 : StoreState)
    (hcreate : createRoute s r = (CreateResult.created nb, s2)) :
    nb.amount = r.amount ∧
    (getBooking s2 nb.id).map (fun b => b.amount) = some r.amount ∧
    (∀ id st, (getBooking (updateBookingStatus s2 id st).2 nb.id).map (fun b => b.amount) =
      (getBooking s2 nb.id).map (fun b => b.amount)) ∧
    (∀ sports2 : List Sport, getBooking { s2 with sports := sports2 } nb.id = getBooking s2 nb.id) := by
  obtain ⟨hnb, hs2, hchk⟩ := createRoute_created hcreate
  subst hnb
  subst hs2
  have hfresh : ∀ x ∈ s.bookings, (x.id == (createBooking s r).1.id) = false :=
    fun x hx => beq_eq_false_iff_ne.mpr (Nat.ne_of_lt (hwf x hx))
  refine ⟨rfl, ?_, fun id st => getBooking_amount_stable _ id st _, fun sports2 => rfl⟩
  show ((mapSet s.bookings (createBooking s r).1).find?
      (fun b => b.id == (createBooking s r).1.id)).map (fun b => b.amount) = some r.amount
  rw [mapSet_append_of_fresh hfresh]
  exact find?_id_append_singleton s.bookings _ hfresh

/-- C6 witness: the mismatched 999 payload is stored with amount 999,
reads back as 999, and a status update leaves that amount unchanged. -/
theorem amount_stored_verbatim_and_stable_witness :
    c6Created.amount = 999 ∧
    (getBooking c6CreatedState 0).map (fun b => b.amount) = some 999 ∧
    (getBooking (updateBookingStatus c6CreatedState 0 "cancelled").2 0).map
        (fun b => b.amount) =
      (getBooking c6CreatedState 0).map (fun b => b.amount) :=
  have h := amount_stored_verbatim_and_stable c6SportsState (by decide) c6BadReq c6Created
    c6CreatedState (by decide)
  ⟨h.1, h.2.1, h.2.2.1 0 "cancelled"⟩

theorem bookedDisjoint_symm : Symmetric BookedDisjoint := by
  intro a b hab hb ha hcourt hdate h hcontra
  exact hab ha hb hcourt.symm hdate.symm h ⟨hcontra.2, hcontra.1⟩

theorem bookedDisjoint_of_right_not_booked {b2 : Booking}
    (h : ¬ b2.status = "booked") (b1 : Booking) : BookedDisjoint b1 b2 :=
  fun _ hb2 => absurd hb2 h

theorem bookedDisjoint_of_left_not_booked {b1 : Booking}
    (h : ¬ b1.status = "booked") (b2 : Booking) : BookedDisjoint b1 b2 :=
  fun hb1 => absurd hb1 h

theorem inv_updateBookingStatus (s : StoreState) (id : Nat) (st : String)
    (hst : ¬ st = "booked") (hwf : IdsFresh s) (hinv : BookedOverlapFree s.bookings) :
    IdsFresh (updateBookingStatus s id st).2 ∧
      BookedOverlapFree (updateBookingStatus s id st).2.bookings := by
  unfold updateBookingStatus
  cases hfind : getBooking s id with
  | none => exact ⟨hwf, hinv⟩
  | some b =>
    dsimp only
    constructor
    · intro x hx
      have hx2 : x ∈ mapSet s.bookings { b with status := st } := hx
      rcases mem_of_mem_mapSet hx2 with h | h
      · exact hwf x h
      · rw [h]
        show b.id < s.nextId
        exact hwf b (List.mem_of_find?_eq_some hfind)
    · show (mapSet s.bookings { b with status := st }).Pairwise BookedDisjoint
      apply pairwise_mapSet
      · intro x
        exact bookedDisjoint_of_right_not_booked hst x
      · intro x
        exact bookedDisjoint_of_left_not_booked hst x
      · exact hinv

theorem inv_cancelRoute (s : StoreState) (id : Nat)
    (hwf : IdsFresh s) (hinv : BookedOverlapFree s.bookings) :
    IdsFresh (cancelRoute s id).2 ∧ BookedOverlapFree (cancelRoute s id).2.bookings := by
  unfold cancelRoute
  cases hfind : getBooking s id with
  | none => exact ⟨hwf, hinv⟩
  | some b =>
    dsimp only
    by_cases hc : (b.status == "cancelled") = true
    · rw [if_pos hc]
      exact ⟨hwf, hinv⟩
    · rw [if_neg hc]
      have h := inv_updateBookingStatus s id "cancelled" (by decide) hwf hinv
      cases hu : updateBookingStatus s id "cancelled" with
      | mk ob s2 =>
        rw [hu] at h
        cases ob with
        | some b2 => exact h
        | none => exact h

theorem inv_completeRoute (s : StoreState) (id : Nat)
    (hwf : IdsFresh s) (hinv : BookedOverlapFree s.bookings) :
    IdsFresh (completeRoute s id).2 ∧ BookedOverlapFree (completeRoute s id).2.bookings := by
  unfold completeRoute
  cases hfind : getBooking s id with
  | none => exact ⟨hwf, hinv⟩
  | some b =>
    dsimp only
    by_cases hc : (b.status == "cancelled") = true
    · rw [if_pos hc]
      exact ⟨hwf, hinv⟩
    · rw [if_neg hc]
      have h := inv_updateBookingStatus s id "completed" (by decide) hwf hinv
      cases hu : updateBookingStatus s id "completed" with
      | mk ob s2 =>
        rw [hu] at h
        cases ob with
        | some b2 => exact h
        | none => exact h

theorem inv_createRoute (s : StoreState) (r : InsertBooking)
    (hwf : IdsFresh s) (hinv : BookedOverlapFree s.bookings) :
    IdsFresh (createRoute s r).2 ∧ BookedOverlapFree (createRoute s r).2.bookings := by
  unfold createRoute
  by_cases hchk : checkSlotAvailability s r.courtId r.date r.startTime r.hours = true
  · rw [if_pos hchk]
    dsimp only
    have hfresh : ∀ x ∈ s.bookings, (x.id == (createBooking s r).1.id) = false :=
      fun x hx => beq_eq_false_iff_ne.mpr (Nat.ne_of_lt (hwf x hx))
    constructor
    · intro x hx
      have hx2 : x ∈ mapSet s.bookings (createBooking s r).1 := hx
      rcases mem_of_mem_mapSet hx2 with h | h
      · show x.id < s.nextId + 1
        exact Nat.lt_succ_of_lt (hwf x h)
      · rw [h]
        show s.nextId < s.nextId + 1
        exact Nat.lt_succ_self s.nextId
    · show (mapSet s.bookings (createBooking s r).1).Pairwise BookedDisjoint
      rw [mapSet_append_of_fresh hfresh, List.pairwise_append]
      refine ⟨hinv, by simp, ?_⟩
      intro a ha y hy
      rw [List.mem_singleton.mp hy]
      intro haB hnbB hcourt hdate h hcontra
      obtain ⟨hcovA, hcovN⟩ := hcontra
      obtain ⟨rs, hprs, hrs1, hrs2⟩ := (coversHour_iff _ h).mp hcovN
      have hprs2 : parseHour r.startTime = some rs := hprs
      have hspec := (checkSlotAvailability_spec s r.courtId r.date r.startTime r.hours
        rs hprs2).mp hchk
      have hmem : a ∈ getBookingsForDateAndCourt s r.date r.courtId := by
        unfold getBookingsForDateAndCourt
        apply List.mem_filter.mpr
        refine ⟨ha, ?_⟩
        simp only [Bool.and_eq_true, beq_iff_eq]
        exact ⟨⟨hdate, hcourt⟩, haB⟩
      have hconf := hspec.2.2 a hmem
      have hr2 : h < rs + r.hours := hrs2
      exact bookingConflict_false_disjoint hconf h ⟨hcovA, hrs1, hr2⟩
  · rw [if_neg hchk]
    exact ⟨hwf, hinv⟩

theorem reachable_inv {init s : StoreState} (hwf : IdsFresh init)
    (hinv : BookedOverlapFree init.bookings) (hr : Reachable init s) :
    IdsFresh s ∧ BookedOverlapFree s.bookings := by
  induction hr with
  | refl => exact ⟨hwf, hinv⟩
  | create r hr ih => exact inv_createRoute _ r ih.1 ih.2
  | cancel id hr ih => exact inv_cancelRoute _ id ih.1 ih.2
  | complete id hr ih => exact inv_completeRoute _ id ih.1 ih.2

/-- C1: starting from any state whose stored ids are fresh and whose
booked bookings are pairwise non-overlapping (the empty store and the
seeded store both qualify), every state reachable through the public
operations — creation via the create route and status updates via the
cancel and complete routes — keeps the booked bookings of every court
and date pairwise disjoint on half-open hour ranges: no hour lies in
two distinct booked bookings' ranges on the same court and date, while
adjacent ranges, sharing no hour, are permitted. -/
theorem no_double_booking (init s : StoreState)
    (hwf : IdsFresh init) (hinv : BookedOverlapFree init.bookings)
    (hr : Reachable init s) :
    ∀ b1 ∈ s.bookings, ∀ b2 ∈ s.bookings, b1 ≠ b2 →
      b1.status = "booked" → b2.status = "booked" →
      b1.courtId = b2.courtId → b1.date = b2.date →
      ∀ h : Nat, ¬(coversHour b1 h = true ∧ coversHour b2 h = true) := by
  have hinv2 := (reachable_inv hwf hinv hr).2
  intro b1 h1 b2 h2 hne
  exact List.Pairwise.forall bookedDisjoint_symm hinv2 h1 h2 hne

/-- C1 witness: after two create calls from the empty store booking the
adjacent ranges 9-11 and 11-12 on the same court and date, no hour —
here hour 10 — lies in both stored booked ranges. -/
theorem no_double_booking_witness :
    ¬(coversHour c1bA 10 = true ∧ coversHour c1bB 10 = true) :=
  no_double_booking emptyState c1Store
    (fun b hb => absurd hb (List.not_mem_nil b)) List.Pairwise.nil
    (Reachable.create c1ReqB (Reachable.create c1ReqA Reachable.refl))
    c1bA (by decide) c1bB (by decide) (by decide) (by decide) (by decide)
    (by decide) (by decide) 10

/-- C8: a completed booking does not block new bookings.  Complete any
non-cancelled booking b; for any requested in-window range on any court
and date such that every OTHER booked booking there avoids the range —
while b itself may overlap it arbitrarily, including holding the
identical range — the availability check on the post-completion store
answers true, and the create route then succeeds, storing a fresh
booked booking.  This holds because getBookingsForDateAndCourt keeps
only status booked, so the completed b drops out of the conflict scan. -/
theorem completed_booking_frees_slot
    (s : StoreState) (id : Nat) (b : Booking)
    (hids : s.bookings.Pairwise (fun a c => a.id ≠ c.id))
    (hb : getBooking s id = some b) (hst : b.status ≠ "cancelled")
    (name phone sportId courtId : String) (date : Nat) (startTime : String)
    (hours amount rs : Nat) (hp : parseHour startTime = some rs)
    (hopen : OPENING_HOUR ≤ rs) (hclose : rs + hours ≤ CLOSING_HOUR)
    (hothers : ∀ b2 ∈ s.bookings, b2.id ≠ id → b2.status = "booked" →
      b2.date = date → b2.courtId = courtId →
      bookingConflict rs (rs + hours) b2 = false) :
    checkSlotAvailability (completeRoute s id).2 courtId date startTime hours = true ∧
    ∃ nb s2, createRoute (completeRoute s id).2
        { name := name, phone := phone, sportId := sportId, courtId := courtId,
          date := date, startTime := startTime, hours := hours, amount := amount,
          status := none } = (CreateResult.created nb, s2) ∧
      nb.status = "booked" ∧ nb ∈ s2.bookings := by
  obtain ⟨l1, l2, hdec, hl1, hpb⟩ := find?_decomp hb
  have hbid : b.id = id := by simpa using hpb
  have hbeq : (b.status == "cancelled") = false := beq_eq_false_iff_ne.mpr hst
  have hbl2 : ∀ y ∈ l2, b.id ≠ y.id := by
    rw [hdec] at hids
    obtain ⟨-, hp2, -⟩ := List.pairwise_append.mp hids
    exact (List.pairwise_cons.mp hp2).1
  have hupd : updateBookingStatus s id "completed" =
      (some { b with status := "completed" },
        { s with bookings := mapSet s.bookings { b with status := "completed" } }) := by
    unfold updateBookingStatus
    rw [hb]
  have hroute : (completeRoute s id).2 =
      { s with bookings := mapSet s.bookings { b with status := "completed" } } := by
    unfold completeRoute
    rw [hb]
    dsimp only
    rw [if_neg (by rw [hbeq]; exact Bool.false_ne_true), hupd]
  have hms : mapSet s.bookings { b with status := "completed" } =
      l1 ++ { b with status := "completed" } :: l2 := by
    rw [hdec]
    exact mapSet_replace rfl (fun x hx => by rw [hbid]; exact hl1 x hx)
  have hall : ∀ b2 ∈ getBookingsForDateAndCourt (completeRoute s id).2 date courtId,
      bookingConflict rs (rs + hours) b2 = false := by
    intro b2 hb2
    have hmem0 : b2 ∈ (completeRoute s id).2.bookings := List.mem_of_mem_filter hb2
    have hpred := List.of_mem_filter hb2
    simp only [Bool.and_eq_true, beq_iff_eq] at hpred
    obtain ⟨⟨hdate2, hcourt2⟩, hst2⟩ := hpred
    rw [hroute] at hmem0
    have hmem : b2 ∈ l1 ++ { b with status := "completed" } :: l2 := by
      rw [← hms]
      exact hmem0
    rcases List.mem_append.mp hmem with h1 | h2
    · have hne : b2.id ≠ id := by
        have := hl1 b2 h1
        simpa using this
      have hmm : b2 ∈ s.bookings := by
        rw [hdec]
        exact List.mem_append_left _ h1
      exact hothers b2 hmm hne hst2 hdate2 hcourt2
    · rcases List.mem_cons.mp h2 with h2 | h2
      · exfalso
        rw [h2] at hst2
        have hcb : ("completed" : String) = "booked" := hst2
        exact absurd hcb (by decide)
      · have hne : b2.id ≠ id := by
          have hq := hbl2 b2 h2
          rw [hbid] at hq
          exact Ne.symm hq
        have hmm : b2 ∈ s.bookings := by
          rw [hdec]
          exact List.mem_append_right _ (List.mem_cons_of_mem _ h2)
        exact hothers b2 hmm hne hst2 hdate2 hcourt2
  have hcheck : checkSlotAvailability (completeRoute s id).2 courtId date startTime hours
      = true :=
    (checkSlotAvailability_spec _ courtId date startTime hours rs hp).mpr
      ⟨hopen, hclose, hall⟩
  have hcr : createRoute (completeRoute s id).2
      { name := name, phone := phone, sportId := sportId, courtId := courtId,
        date := date, startTime := startTime, hours := hours, amount := amount,
        status := none } =
      (CreateResult.created (createBooking (completeRoute s id).2
        { name := name, phone := phone, sportId := sportId, courtId := courtId,
          date := date, startTime := startTime, hours := hours, amount := amount,
          status := none }).1,
       (createBooking (completeRoute s id).2
        { name := name, phone := phone, sportId := sportId, courtId := courtId,
          date := date, startTime := startTime, hours := hours, amount := amount,
          status := none }).2) := by
    unfold createRoute
    rw [if_pos hcheck]
  exact ⟨hcheck, _, _, hcr, rfl, mem_mapSet_self _ _⟩

/-- C8 witness: completing the booked "09:00" two-hour booking on the
concrete store frees its exact slot: the same-range availability check
answers true and a fresh create there succeeds. -/
theorem completed_booking_frees_slot_witness :
    checkSlotAvailability (completeRoute c8State 0).2 "court-a" 20738 "09:00" 2 = true :=
  (completed_booking_frees_slot c8State 0 c8Booking (by decide) (by decide) (by decide)
    "Bilal" "0301" "cricket" "court-a" 20738 "09:00" 2 4000 9 (by decide) (by decide)
    (by decide) (by decide)).1

/-- C2: the failing input for atomicity.  The create handler awaits the
availability check and the insert separately and takes no lock, so two
concurrent requests for the same slot can interleave as check, check,
insert, insert.  Both checks run against the pre-insert store and
accept, both inserts land, and the final store holds two booked
bookings covering the same hour on the same court and date — whereas
run as one atomic unit (the sequential composition, also shown) the
second call observes the conflict. -/
theorem create_check_insert_interleaving_double_books :
    checkSlotAvailability emptyState c2Req.courtId c2Req.date c2Req.startTime c2Req.hours
        = true ∧
    (createRoute emptyState c2Req).1 = CreateResult.created (createBooking emptyState c2Req).1 ∧
    (createRoute (createRoute emptyState c2Req).2 c2Req).1 = CreateResult.conflict ∧
    ((createBooking (createBooking emptyState c2Req).2 c2Req).2.bookings.length = 2 ∧
      ∃ b1 ∈ (createBooking (createBooking emptyState c2Req).2 c2Req).2.bookings,
      ∃ b2 ∈ (createBooking (createBooking emptyState c2Req).2 c2Req).2.bookings,
        b1.id ≠ b2.id ∧ b1.status = "booked" ∧ b2.status = "booked" ∧
        b1.courtId = b2.courtId ∧ b1.date = b2.date ∧
        coversHour b1 9 = true ∧ coversHour b2 9 = true) := by
  decide

end CourtBooker
